import Mathlib

/-
Shallow embedding of the voice-input subsystem of the chatmaga repository:
the in-browser recognition adapter (src/hooks/useWebSpeech.ts) and the
voice-input orchestrator (the useVoiceRecording hook).  React state cells
become fields of explicit state records; asynchronous engine callbacks
become events applied to the adapter state; platform effects (device
acquisition, track release, gateway calls) are recorded in an effect trace.
-/

namespace Chatmaga

/-- JavaScript truthiness of a nullable string value (`null`, `undefined`
and `""` are falsy; every other string is truthy). -/
def optTruthy : Option String → Bool
  | none => false
  | some s => s ≠ ""

/-- JavaScript short-circuit `a || b` on nullable strings, as used in
`error: error || webSpeech.error` of the orchestrator's return value. -/
def jsOr (a b : Option String) : Option String :=
  if optTruthy a then a else b

/-- JavaScript `String.prototype.trim()`: strips leading and trailing
whitespace characters. -/
def jsTrim (s : String) : String :=
  ⟨((s.data.dropWhile Char.isWhitespace).reverse.dropWhile Char.isWhitespace).reverse⟩

/-! In-browser recognition adapter (useWebSpeech.ts). -/

/-- State cells of the useWebSpeech hook: `isListening`, `transcript`,
`error` and `confidence` (`useState(false)`, `useState('')`,
`useState<string|null>(null)`, `useState(0)`). -/
structure WebSpeechState where
  isListening : Bool
  transcript : String
  error : Option String
  confidence : Rat
  deriving Repr, DecidableEq

/-- Initial adapter state as created by the hook's `useState` calls. -/
def initialWebSpeech : WebSpeechState :=
  { isListening := false, transcript := "", error := none, confidence := 0 }

/-- Configuration written onto the engine instance by `startListening`:
`continuous`, `interimResults`, `lang`, `maxAlternatives`. -/
structure EngineConfig where
  continuous : Bool
  interimResults : Bool
  lang : String
  maxAlternatives : Nat
  deriving Repr, DecidableEq

/-- The fixed configuration `continuous=false, interimResults=true,
lang='en-US', maxAlternatives=1` set in startListening. -/
def engineSetup : EngineConfig :=
  { continuous := false, interimResults := true, lang := "en-US", maxAlternatives := 1 }

/-- The `startListening` callback.  `isSupported` is the probe
`'webkitSpeechRecognition' in window || 'SpeechRecognition' in window`;
`startOk` models whether constructing and starting the engine throws
(the try/catch around the body).  Returns the updated state together with
the configuration of the engine instance that was started, if any.
Unsupported: sets the unsupported error and returns without touching
anything else.  Supported: `setError(null); setTranscript('')`, then
configures and starts the engine; on a throw the catch sets
`Failed to start speech recognition` and clears `isListening`.
Note the source resets transcript and error but never calls
`setConfidence`. -/
def startListening (isSupported startOk : Bool) (s : WebSpeechState) :
    WebSpeechState × Option EngineConfig :=
  if !isSupported then
    ({ s with error := some "Speech recognition is not supported in this browser" }, none)
  else
    let s1 := { s with error := none, transcript := "" }
    if startOk then
      (s1, some engineSetup)
    else
      ({ s1 with error := some "Failed to start speech recognition", isListening := false }, none)

/-- One recognition alternative, `result[0]` of a SpeechRecognitionResult:
its `transcript` and its `confidence` (absent/0 collapses to 0 via the
source's `result[0].confidence || 0`). -/
structure SpeechAlternative where
  transcript : String
  confidence : Option Rat
  deriving Repr, DecidableEq

/-- The last element of `event.results` as read by the `onresult` handler
(`event.results[event.results.length - 1]`): its best alternative and the
`isFinal` flag. -/
structure SpeechResult where
  best : SpeechAlternative
  isFinal : Bool
  deriving Repr, DecidableEq

/-- The `onresult` engine callback: overwrites transcript and confidence
with the latest hypothesis; when the result is final, clears
`isListening`. -/
def onresult (result : SpeechResult) (s : WebSpeechState) : WebSpeechState :=
  { s with
    transcript := result.best.transcript
    confidence := result.best.confidence.getD 0
    isListening := if result.isFinal then false else s.isListening }

/-- The `onerror` engine callback: records
`Speech recognition error: <code>` and clears `isListening`. -/
def onerror (code : String) (s : WebSpeechState) : WebSpeechState :=
  { s with error := some ("Speech recognition error: " ++ code), isListening := false }

/-- The `onstart` engine callback: sets `isListening`. -/
def onstart (s : WebSpeechState) : WebSpeechState :=
  { s with isListening := true }

/-- The `onend` engine callback: clears `isListening`. -/
def onend (s : WebSpeechState) : WebSpeechState :=
  { s with isListening := false }

/-- An asynchronous engine callback delivered to the adapter. -/
inductive WSEvent where
  | started
  | result (r : SpeechResult)
  | errored (code : String)
  | ended
  deriving Repr, DecidableEq

/-- Dispatch one engine callback to its handler. -/
def applyEvent : WSEvent → WebSpeechState → WebSpeechState
  | .started, s => onstart s
  | .result r, s => onresult r s
  | .errored c, s => onerror c s
  | .ended, s => onend s

/-- Apply a sequence of engine callbacks in order (single-threaded event
loop: callbacks never overlap). -/
def applyEvents (evs : List WSEvent) (s : WebSpeechState) : WebSpeechState :=
  evs.foldl (fun st e => applyEvent e st) s

/-! Voice input orchestrator (useVoiceRecording). -/

/-- A media-stream track, identified by a number. -/
abbrev Track := Nat

/-- The MediaRecorder held in the `mediaRecorder` ref: the media stream's
tracks and the mime type chosen at construction. -/
structure Recorder where
  stream : List Track
  mimeType : String
  deriving Repr, DecidableEq

/-- State of the useVoiceRecording hook: the `isRecording`, `isProcessing`
and `error` state cells, the `mediaRecorder` and `audioChunks` refs, and
the embedded useWebSpeech adapter state. -/
structure VRState where
  isRecording : Bool
  isProcessing : Bool
  error : Option String
  mediaRecorder : Option Recorder
  audioChunks : List (List Nat)
  ws : WebSpeechState
  deriving Repr, DecidableEq

/-- The externally observed recording flag, the hook's return value
`isRecording: isRecording || webSpeech.isListening`. -/
def VRState.publicIsRecording (s : VRState) : Bool :=
  s.isRecording || s.ws.isListening

/-- The externally observed error, the hook's return value
`error: error || webSpeech.error`. -/
def VRState.publicError (s : VRState) : Option String :=
  jsOr s.error s.ws.error

/-- Initial orchestrator state from the hook's `useState`/`useRef` calls. -/
def idleState : VRState :=
  { isRecording := false, isProcessing := false, error := none,
    mediaRecorder := none, audioChunks := [], ws := initialWebSpeech }

/-- A concrete in-browser session right after a successful supported
start: the session flag is set and the adapter is listening. -/
def listeningSession : VRState :=
  { idleState with
      isRecording := true,
      ws := { initialWebSpeech with isListening := true } }

/-- Observable platform side effects of the orchestrator, recorded as a
trace: engine start/stop requests, `getUserMedia` device acquisition,
MediaRecorder construction and `start(interval)`, the recorder stop
request, the fixed settle delay, blob assembly, `track.stop()` calls and
the transcription-gateway invocation. -/
inductive Effect where
  | engineStartRequest
  | engineStopRequest
  | deviceAcquire
  | recorderCreate (mime : String)
  | recorderStart (intervalMs : Nat)
  | recorderStopRequest
  | settleDelay (ms : Nat)
  | blobAssemble
  | trackStop (t : Track)
  | gatewayCall
  deriving Repr, DecidableEq

/-- Environment of one `startRecording` call: the adapter's capability
probe, whether the engine start throws, the `getUserMedia` outcome (the
acquired stream's tracks, or `none` when acquisition is denied or
errors), and the `MediaRecorder.isTypeSupported('audio/webm;codecs=opus')`
probe. -/
structure StartEnv where
  isSupported : Bool
  engineStartOk : Bool
  userMedia : Option (List Track)
  opusSupported : Bool
  deriving Repr, DecidableEq

/-- Mime selection at MediaRecorder construction:
`audio/webm;codecs=opus` when supported, else `audio/webm`. -/
def recorderMime (opusSupported : Bool) : String :=
  if opusSupported then "audio/webm;codecs=opus" else "audio/webm"

/-- The `startRecording` callback.  Clears `error`; when the adapter is
supported, delegates to `startListening` and sets `isRecording` — the
device branch is never reached.  Otherwise requests the device: on
success constructs a MediaRecorder over the stream, resets the chunk
buffer, starts it with a 1000 ms flush interval and sets `isRecording`;
on denial the catch records the permission message.  Returns the new
state and the effect trace. -/
def startRecording (env : StartEnv) (s : VRState) : VRState × List Effect :=
  let s0 := { s with error := none }
  if env.isSupported then
    let ws1 := (startListening env.isSupported env.engineStartOk s0.ws).1
    ({ s0 with ws := ws1, isRecording := true }, [Effect.engineStartRequest])
  else
    match env.userMedia with
    | some stream =>
        let r : Recorder := { stream := stream, mimeType := recorderMime env.opusSupported }
        ({ s0 with mediaRecorder := some r, audioChunks := [], isRecording := true },
         [Effect.deviceAcquire, Effect.recorderCreate r.mimeType, Effect.recorderStart 1000])
    | none =>
        ({ s0 with error := some "Failed to start recording. Please check microphone permissions." },
         [Effect.deviceAcquire])

/-- Environment of one `stopRecording` call: the engine callbacks that
land during the 1000 ms settle delay of the in-browser path, whether blob
assembly throws (outer try of the `onstop` handler), and the
transcription-gateway outcome — `some text` when `supabase.functions.invoke`
succeeds with `data.text = text`, `none` when it rejects or reports an
error (the inner catch). -/
structure StopEnv where
  settleEvents : List WSEvent
  blobOk : Bool
  gateway : Option String
  deriving Repr, DecidableEq

/-- Result of a `stopRecording` call: the final hook state, the value the
returned promise resolves with, and the effect trace. -/
structure StopOutcome where
  state : VRState
  resolved : Option String
  effects : List Effect
  deriving Repr, DecidableEq

/-- In-browser stop, synchronous prefix: `webSpeech.stopListening()` then
`setIsRecording(false)`.  This is the hook state during the settle delay,
before the adapter is inspected. -/
def stopBrowserSignalled (s : VRState) : VRState :=
  { s with isRecording := false }

/-- In-browser stop, resolution policy after the settle delay, inspecting
the adapter state embedded in `s`: (a) `webSpeech.transcript &&
webSpeech.transcript.trim()` → resolve the trimmed transcript;
(b) `webSpeech.error` truthy → set `Web Speech API error: <e>`, resolve
null; (c) otherwise set `No speech detected. Please try again.`, resolve
null. -/
def stopBrowserResolve (s : VRState) : VRState × Option String :=
  if s.ws.transcript ≠ "" ∧ jsTrim s.ws.transcript ≠ "" then
    (s, some (jsTrim s.ws.transcript))
  else if optTruthy s.ws.error then
    ({ s with error := some ("Web Speech API error: " ++ s.ws.error.getD "") }, none)
  else
    ({ s with error := some "No speech detected. Please try again." }, none)

/-- Device path, `onstop` handler prefix: `setIsRecording(false)` then
`setIsProcessing(true)`. -/
def deviceRecorderStopped (s : VRState) : VRState :=
  { s with isRecording := false, isProcessing := true }

/-- Device path, the FileReader `onloadend` handler: invokes the gateway;
on success clears `isProcessing` and resolves `data.text || null`; on any
throw (invoke rejection or gateway-reported error) the catch sets the
quota message, clears `isProcessing` and resolves null. -/
def deviceOnloadend (gateway : Option String) (s : VRState) : VRState × Option String :=
  match gateway with
  | some text =>
      ({ s with isProcessing := false }, if text = "" then none else some text)
  | none =>
      ({ s with error := some "API quota exceeded. Please try the built-in voice recognition.",
                isProcessing := false }, none)

/-- Device path of `stopRecording`: `mediaRecorder.stop()` fires `onstop`,
which clears `isRecording`, sets `isProcessing`, assembles the chunk blob
and starts the FileReader inside a try (on a throw the catch sets
`Failed to process recording.`, clears `isProcessing` and resolves null),
then unconditionally stops every track of the recorder's stream; the
`onloadend` continuation then runs the gateway round trip. -/
def deviceStop (env : StopEnv) (r : Recorder) (s : VRState) : StopOutcome :=
  let s1 := deviceRecorderStopped s
  if env.blobOk then
    { state := (deviceOnloadend env.gateway s1).1,
      resolved := (deviceOnloadend env.gateway s1).2,
      effects := [Effect.recorderStopRequest, Effect.blobAssemble]
        ++ r.stream.map Effect.trackStop ++ [Effect.gatewayCall] }
  else
    { state := { s1 with error := some "Failed to process recording.", isProcessing := false },
      resolved := none,
      effects := [Effect.recorderStopRequest] ++ r.stream.map Effect.trackStop }

/-- The `stopRecording` callback.  Resolves null at once when the
`isRecording` state cell is false; takes the in-browser path when
`webSpeech.isListening` (signal stop, clear `isRecording`, wait the
1000 ms settle delay, then apply the resolution policy); otherwise
resolves null when no MediaRecorder exists, else runs the device path.
The callback is a useCallback closure over the `webSpeech` object of
useState values snapshotted at invocation: engine callbacks landing
during the settle delay (`env.settleEvents`) update the adapter's state
cells for future renders, but the resolution policy inspects the frozen
snapshot `s.ws` — the executing closure never sees them. -/
def stopRecording (env : StopEnv) (s : VRState) : StopOutcome :=
  if !s.isRecording then
    { state := s, resolved := none, effects := [] }
  else if s.ws.isListening then
    let s1 := stopBrowserSignalled s
    { state := { (stopBrowserResolve s1).1 with ws := applyEvents env.settleEvents s.ws },
      resolved := (stopBrowserResolve s1).2,
      effects := [Effect.engineStopRequest, Effect.settleDelay 1000] }
  else
    match s.mediaRecorder with
    | none => { state := s, resolved := none, effects := [] }
    | some r => deviceStop env r s

/-! Theorems settling the claims, with shared helper lemmas. -/

/-- The adapter-error message surfaced by the orchestrator is never the
empty string. -/
theorem webSpeechError_ne_empty (x : String) :
    ("Web Speech API error: " ++ x) ≠ "" := by
  intro h
  have h2 := congrArg String.length h
  simp [String.length_append] at h2
  exact absurd h2.1 (by decide)

/-- C1: evaluation of the code at the failing input.  A session stopped
before any result (snapshot transcript empty, adapter listening) whose
settle delay delivers the final result "hello world": the adapter's
state cells do hold that final text when the delay ends — the third
conjunct — yet stopRecording resolves null and sets the empty-speech
error, because the resolution policy reads the stale closure snapshot,
never the late final result the 1000 ms wait was meant to let land.  The
claim (spec P2 and the source's own comment above the delay) requires
the trimmed final text to be resolved here. -/
theorem stopRecording_misses_late_final :
    (stopRecording ⟨[WSEvent.result ⟨⟨"hello world", some 1⟩, true⟩], true, none⟩
        listeningSession).resolved = none ∧
    (stopRecording ⟨[WSEvent.result ⟨⟨"hello world", some 1⟩, true⟩], true, none⟩
        listeningSession).state.error
      = some "No speech detected. Please try again." ∧
    (stopRecording ⟨[WSEvent.result ⟨⟨"hello world", some 1⟩, true⟩], true, none⟩
        listeningSession).state.ws.transcript = "hello world" := by
  refine ⟨?_, ?_, ?_⟩ <;> rfl

/-- C2: on the in-browser path the resolution policy is checked in this
fixed order against the adapter values the executing closure inspects
(its snapshot at invocation): (a) non-empty trimmed transcript → resolve
it trimmed, internal error untouched; (b) otherwise a truthy adapter
error → resolve null with the public error surfacing that adapter error;
(c) otherwise → resolve null with the public error set to the
empty-speech message — an empty transcript with no engine error never
yields a silent success. -/
theorem stopRecording_browser_policy (env : StopEnv) (s : VRState)
    (h1 : s.isRecording = true) (h2 : s.ws.isListening = true) :
    (s.ws.transcript ≠ "" ∧ jsTrim s.ws.transcript ≠ "" →
      (stopRecording env s).resolved = some (jsTrim s.ws.transcript) ∧
      (stopRecording env s).state.error = s.error) ∧
    (¬(s.ws.transcript ≠ "" ∧ jsTrim s.ws.transcript ≠ "") → optTruthy s.ws.error = true →
      (stopRecording env s).resolved = none ∧
      (stopRecording env s).state.error
        = some ("Web Speech API error: " ++ s.ws.error.getD "") ∧
      (stopRecording env s).state.publicError
        = some ("Web Speech API error: " ++ s.ws.error.getD "")) ∧
    (¬(s.ws.transcript ≠ "" ∧ jsTrim s.ws.transcript ≠ "") → optTruthy s.ws.error = false →
      (stopRecording env s).resolved = none ∧
      (stopRecording env s).state.error = some "No speech detected. Please try again." ∧
      (stopRecording env s).state.publicError = some "No speech detected. Please try again.") := by
  refine ⟨?_, ?_, ?_⟩
  · intro hc
    simp [stopRecording, h1, h2, stopBrowserSignalled, stopBrowserResolve, hc]
  · intro hc herr
    cases hh : s.ws.error with
    | none =>
      rw [hh] at herr
      simp [optTruthy] at herr
    | some e =>
      rw [hh] at herr
      simp [optTruthy] at herr
      simp [stopRecording, h1, h2, stopBrowserSignalled, stopBrowserResolve, hc, hh,
        VRState.publicError, jsOr, optTruthy, herr, webSpeechError_ne_empty]
  · intro hc herr
    have hne : ("No speech detected. Please try again." : String) ≠ "" := by decide
    cases hh : s.ws.error with
    | none =>
      simp [stopRecording, h1, h2, stopBrowserSignalled, stopBrowserResolve, hc, hh,
        VRState.publicError, jsOr, optTruthy, hne]
    | some e =>
      rw [hh] at herr
      simp [optTruthy] at herr
      subst herr
      simp [stopRecording, h1, h2, stopBrowserSignalled, stopBrowserResolve, hc, hh,
        VRState.publicError, jsOr, optTruthy, hne]

/-- Witness for C2: a listening session whose settle delay delivers
nothing (empty transcript, no engine error) falls through to branch (c):
null with the empty-speech error. -/
theorem stopRecording_browser_policy_witness :
    ((listeningSession.ws.transcript ≠ "" ∧ jsTrim listeningSession.ws.transcript ≠ "" →
      (stopRecording ⟨[], true, none⟩ listeningSession).resolved
        = some (jsTrim listeningSession.ws.transcript) ∧
      (stopRecording ⟨[], true, none⟩ listeningSession).state.error
        = listeningSession.error) ∧
    (¬(listeningSession.ws.transcript ≠ "" ∧ jsTrim listeningSession.ws.transcript ≠ "") →
      optTruthy listeningSession.ws.error = true →
      (stopRecording ⟨[], true, none⟩ listeningSession).resolved = none ∧
      (stopRecording ⟨[], true, none⟩ listeningSession).state.error
        = some ("Web Speech API error: " ++ listeningSession.ws.error.getD "") ∧
      (stopRecording ⟨[], true, none⟩ listeningSession).state.publicError
        = some ("Web Speech API error: " ++ listeningSession.ws.error.getD "")) ∧
    (¬(listeningSession.ws.transcript ≠ "" ∧ jsTrim listeningSession.ws.transcript ≠ "") →
      optTruthy listeningSession.ws.error = false →
      (stopRecording ⟨[], true, none⟩ listeningSession).resolved = none ∧
      (stopRecording ⟨[], true, none⟩ listeningSession).state.error
        = some "No speech detected. Please try again." ∧
      (stopRecording ⟨[], true, none⟩ listeningSession).state.publicError
        = some "No speech detected. Please try again.")) :=
  stopRecording_browser_policy ⟨[], true, none⟩ listeningSession rfl rfl


/-- C3: for every invocation of startRecording with the recognition
capability supported, no device capture is initiated — the trace is only
the engine start request (no device acquisition, no recorder creation or
start), and the recorder ref and chunk buffer are untouched: the session
is backed exclusively by the in-browser adapter. -/
theorem startRecording_supported_no_device (env : StartEnv) (s : VRState)
    (h : env.isSupported = true) :
    (startRecording env s).2 = [Effect.engineStartRequest] ∧
    Effect.deviceAcquire ∉ (startRecording env s).2 ∧
    (startRecording env s).1.mediaRecorder = s.mediaRecorder ∧
    (startRecording env s).1.audioChunks = s.audioChunks := by
  simp [startRecording, h]

/-- Witness for C3 at a concrete supported environment and the idle
state. -/
theorem startRecording_supported_no_device_witness :
    (startRecording ⟨true, true, none, false⟩ idleState).2 = [Effect.engineStartRequest] ∧
    Effect.deviceAcquire ∉ (startRecording ⟨true, true, none, false⟩ idleState).2 ∧
    (startRecording ⟨true, true, none, false⟩ idleState).1.mediaRecorder = idleState.mediaRecorder ∧
    (startRecording ⟨true, true, none, false⟩ idleState).1.audioChunks = idleState.audioChunks :=
  startRecording_supported_no_device ⟨true, true, none, false⟩ idleState rfl

/-- C6: whenever stopRecording is called while no capture session is
active (the externally observed isRecording is false), it resolves null
and leaves the whole state — in particular the public error field —
unchanged. -/
theorem stopRecording_no_session (env : StopEnv) (s : VRState)
    (h : s.publicIsRecording = false) :
    (stopRecording env s).resolved = none ∧
    (stopRecording env s).state = s := by
  have h1 : s.isRecording = false := by
    simp [VRState.publicIsRecording] at h
    exact h.1
  simp [stopRecording, h1]

/-- Witness for C6 at the idle state. -/
theorem stopRecording_no_session_witness :
    (stopRecording ⟨[], true, none⟩ idleState).resolved = none ∧
    (stopRecording ⟨[], true, none⟩ idleState).state = idleState :=
  stopRecording_no_session ⟨[], true, none⟩ idleState rfl

/-- C10: a session started on the in-browser path whose adapter has
already stopped listening by the time stopRecording runs (engine ended on
its own) skips the in-browser resolution policy, finds no media recorder,
and resolves null with the state entirely unchanged: no error is set and
the orchestrator's internal isRecording flag is not cleared. -/
theorem stopRecording_stale_browser (env : StopEnv) (s : VRState)
    (h1 : s.isRecording = true) (h2 : s.ws.isListening = false)
    (h3 : s.mediaRecorder = none) :
    (stopRecording env s).resolved = none ∧
    (stopRecording env s).state = s ∧
    (stopRecording env s).state.error = s.error ∧
    (stopRecording env s).state.isRecording = true := by
  simp [stopRecording, h1, h2, h3]

/-- Witness for C10 at a concrete stale in-browser session. -/
theorem stopRecording_stale_browser_witness :
    (stopRecording ⟨[], true, none⟩ { idleState with isRecording := true }).resolved = none ∧
    (stopRecording ⟨[], true, none⟩ { idleState with isRecording := true }).state
      = { idleState with isRecording := true } ∧
    (stopRecording ⟨[], true, none⟩ { idleState with isRecording := true }).state.error
      = ({ idleState with isRecording := true } : VRState).error ∧
    (stopRecording ⟨[], true, none⟩ { idleState with isRecording := true }).state.isRecording = true :=
  stopRecording_stale_browser ⟨[], true, none⟩ { idleState with isRecording := true } rfl rfl rfl

/-- Predicate selecting the `track.stop()` calls in an effect trace. -/
def isTrackStopEffect : Effect → Bool
  | .trackStop _ => true
  | _ => false

/-- C4: on the device path, for every stopRecording invocation and every
processing outcome (blob assembly success or failure, gateway success,
empty gateway text or gateway failure), the trace contains exactly as
many track-stop calls as the stream has tracks, and each individual
track is stopped exactly as often as it occurs in the stream — once, for
the distinct tracks of a real media stream. -/
theorem stopRecording_device_tracks (env : StopEnv) (s : VRState) (r : Recorder)
    (h1 : s.isRecording = true) (h2 : s.ws.isListening = false)
    (h3 : s.mediaRecorder = some r) :
    (((stopRecording env s).effects.filter isTrackStopEffect).length = r.stream.length) ∧
    ∀ t, (stopRecording env s).effects.count (Effect.trackStop t) = r.stream.count t := by
  have hinj : ∀ a b : Track, Effect.trackStop a = Effect.trackStop b → a = b :=
    fun a b h => Effect.trackStop.injEq a b ▸ h
  have hdev : stopRecording env s = deviceStop env r s := by
    simp [stopRecording, h1, h2, h3]
  rw [hdev]
  cases hb : env.blobOk <;>
    exact ⟨by simp [deviceStop, hb, List.filter_append, List.filter_map, isTrackStopEffect],
      by simp [deviceStop, hb, List.count_append, List.count_singleton,
        List.count_map_of_injective r.stream Effect.trackStop hinj]⟩

/-- Witness for C4: a two-track device session with a successful gateway
round trip stops both tracks exactly once. -/
theorem stopRecording_device_tracks_witness :
    (((stopRecording ⟨[], true, some "transcribed"⟩
        { idleState with isRecording := true, mediaRecorder := some ⟨[3, 7], "audio/webm"⟩ }).effects.filter
          isTrackStopEffect).length
      = ([3, 7] : List Track).length) ∧
    ∀ t, (stopRecording ⟨[], true, some "transcribed"⟩
        { idleState with isRecording := true, mediaRecorder := some ⟨[3, 7], "audio/webm"⟩ }).effects.count
          (Effect.trackStop t)
      = ([3, 7] : List Track).count t :=
  stopRecording_device_tracks ⟨[], true, some "transcribed"⟩
    { idleState with isRecording := true, mediaRecorder := some ⟨[3, 7], "audio/webm"⟩ }
    ⟨[3, 7], "audio/webm"⟩ rfl rfl rfl

/-- C5: isProcessing is set exactly between the device recorder's stop
event and the resolution of the transcription request: every device-path
resolution (blob failure, gateway failure, empty or non-empty gateway
text) returns it to false, the state between the recorder stop and the
resolution has it true, and neither the in-browser path nor the
no-session path ever changes it. -/
theorem isProcessing_device_lifecycle (env : StopEnv) (s : VRState) :
    (∀ r, s.isRecording = true → s.ws.isListening = false → s.mediaRecorder = some r →
      (stopRecording env s).state.isProcessing = false ∧
      (deviceRecorderStopped s).isProcessing = true) ∧
    (s.isRecording = true → s.ws.isListening = true →
      (stopRecording env s).state.isProcessing = s.isProcessing) ∧
    (s.isRecording = false →
      (stopRecording env s).state.isProcessing = s.isProcessing) := by
  refine ⟨?_, ?_, ?_⟩
  · intro r h1 h2 h3
    refine ⟨?_, by simp [deviceRecorderStopped]⟩
    have hdev : stopRecording env s = deviceStop env r s := by
      simp [stopRecording, h1, h2, h3]
    rw [hdev]
    cases hb : env.blobOk
    · simp [deviceStop, hb]
    · cases hg : env.gateway <;>
        simp [deviceStop, hb, hg, deviceOnloadend, deviceRecorderStopped]
  · intro h1 h2
    by_cases hc : s.ws.transcript ≠ "" ∧ jsTrim s.ws.transcript ≠ ""
    · simp [stopRecording, h1, h2, stopBrowserSignalled, stopBrowserResolve, hc]
    · by_cases herr : optTruthy s.ws.error = true
      · simp [stopRecording, h1, h2, stopBrowserSignalled, stopBrowserResolve, hc, herr]
      · simp [stopRecording, h1, h2, stopBrowserSignalled, stopBrowserResolve, hc, herr]
  · intro h1
    simp [stopRecording, h1]

/-- Witness for C5 at a concrete device session whose gateway call
fails. -/
theorem isProcessing_device_lifecycle_witness :
    ((∀ r, ({ idleState with isRecording := true, mediaRecorder := some ⟨[4], "audio/webm"⟩ } : VRState).isRecording = true →
      ({ idleState with isRecording := true, mediaRecorder := some ⟨[4], "audio/webm"⟩ } : VRState).ws.isListening = false →
      ({ idleState with isRecording := true, mediaRecorder := some ⟨[4], "audio/webm"⟩ } : VRState).mediaRecorder = some r →
      (stopRecording ⟨[], true, none⟩
        { idleState with isRecording := true, mediaRecorder := some ⟨[4], "audio/webm"⟩ }).state.isProcessing = false ∧
      (deviceRecorderStopped
        { idleState with isRecording := true, mediaRecorder := some ⟨[4], "audio/webm"⟩ }).isProcessing = true) ∧
    (({ idleState with isRecording := true, mediaRecorder := some ⟨[4], "audio/webm"⟩ } : VRState).isRecording = true →
      ({ idleState with isRecording := true, mediaRecorder := some ⟨[4], "audio/webm"⟩ } : VRState).ws.isListening = true →
      (stopRecording ⟨[], true, none⟩
        { idleState with isRecording := true, mediaRecorder := some ⟨[4], "audio/webm"⟩ }).state.isProcessing
        = ({ idleState with isRecording := true, mediaRecorder := some ⟨[4], "audio/webm"⟩ } : VRState).isProcessing) ∧
    (({ idleState with isRecording := true, mediaRecorder := some ⟨[4], "audio/webm"⟩ } : VRState).isRecording = false →
      (stopRecording ⟨[], true, none⟩
        { idleState with isRecording := true, mediaRecorder := some ⟨[4], "audio/webm"⟩ }).state.isProcessing
        = ({ idleState with isRecording := true, mediaRecorder := some ⟨[4], "audio/webm"⟩ } : VRState).isProcessing)) :=
  isProcessing_device_lifecycle ⟨[], true, none⟩
    { idleState with isRecording := true, mediaRecorder := some ⟨[4], "audio/webm"⟩ }

/-- C7 counterexample: at a concrete in-browser session, immediately
after stopRecording signals the adapter to stop and clears the internal
flag — before the settle delay — the externally observed isRecording
(`isRecording || webSpeech.isListening`) is still true, because the
adapter's isListening only clears through the engine's asynchronous
callbacks; the claim asserts it is already cleared at that point. -/
theorem stopBrowser_public_still_true :
    (stopBrowserSignalled listeningSession).publicIsRecording = true := by
  rfl

/-- C7 amended: on the in-browser path stopRecording clears the
orchestrator's internal isRecording flag immediately after signaling the
adapter to stop, before the settle delay; the externally observed
isRecording, being the disjunction of the internal flag and the
adapter's isListening, then equals the adapter's isListening and stays
true until the engine's own callbacks clear that. -/
theorem stopBrowserSignalled_clears_internal (s : VRState) :
    (stopBrowserSignalled s).isRecording = false ∧
    (stopBrowserSignalled s).publicIsRecording = s.ws.isListening := by
  constructor
  · rfl
  · simp [stopBrowserSignalled, VRState.publicIsRecording]

/-- C8: when the recognition capability is unsupported and device
acquisition is denied or errors, startRecording returns normally (the
model is a total function: the catch swallows the rejection), sets the
permission-denied message in the public error field, and the externally
observed isRecording stays false. -/
theorem startRecording_denied (env : StartEnv) (s : VRState)
    (h0 : s.isRecording = false) (h1 : env.isSupported = false)
    (h2 : env.userMedia = none) (h3 : s.ws.isListening = false) :
    (startRecording env s).1.publicIsRecording = false ∧
    (startRecording env s).1.publicError
      = some "Failed to start recording. Please check microphone permissions." := by
  have hne : ("Failed to start recording. Please check microphone permissions." : String) ≠ "" := by
    decide
  constructor
  · simp [startRecording, h0, h1, h2, VRState.publicIsRecording, h3]
  · simp [startRecording, h1, h2, VRState.publicError, jsOr, optTruthy, hne]

/-- Witness for C8 at the idle state with an unsupported, denying
environment. -/
theorem startRecording_denied_witness :
    (startRecording ⟨false, true, none, false⟩ idleState).1.publicIsRecording = false ∧
    (startRecording ⟨false, true, none, false⟩ idleState).1.publicError
      = some "Failed to start recording. Please check microphone permissions." :=
  startRecording_denied ⟨false, true, none, false⟩ idleState rfl rfl rfl rfl

/-- C9 counterexample: startListening does not reset confidence to its
initial value 0 — starting over an adapter state whose confidence is 1/2
(left by a previous session's result) keeps it at 1/2, because the
source resets only transcript and error. -/
theorem startListening_keeps_confidence :
    ((startListening true true
        { isListening := false, transcript := "old", error := none,
          confidence := (1 : Rat) / 2 }).1.confidence = (1 : Rat) / 2) ∧
    ((1 : Rat) / 2 ≠ 0) := by
  constructor
  · rfl
  · norm_num

/-- C9 amended: when supported, every call of startListening resets the
transcript to empty and the error to null before configuring and
starting the engine in single-utterance mode with interim results and
the fixed en-US language tag (confidence keeps its previous value, being
overwritten only by the next recognition result; a throwing engine start
is caught into the failed-start error); when unsupported it fails fast
by setting the unsupported error without starting or resetting
anything. -/
theorem startListening_resets (supported startOk : Bool) (s : WebSpeechState) :
    (supported = true → startOk = true →
      (startListening supported startOk s).1.transcript = "" ∧
      (startListening supported startOk s).1.error = none ∧
      (startListening supported startOk s).1.confidence = s.confidence ∧
      (startListening supported startOk s).2 = some engineSetup) ∧
    (supported = true → startOk = false →
      (startListening supported startOk s).1.transcript = "" ∧
      (startListening supported startOk s).1.error
        = some "Failed to start speech recognition" ∧
      (startListening supported startOk s).1.confidence = s.confidence ∧
      (startListening supported startOk s).2 = none) ∧
    (supported = false →
      (startListening supported startOk s).1.error
        = some "Speech recognition is not supported in this browser" ∧
      (startListening supported startOk s).2 = none ∧
      (startListening supported startOk s).1.transcript = s.transcript ∧
      (startListening supported startOk s).1.confidence = s.confidence ∧
      (startListening supported startOk s).1.isListening = s.isListening) := by
  refine ⟨?_, ?_, ?_⟩
  · intro h1 h2
    simp [startListening, h1, h2]
  · intro h1 h2
    simp [startListening, h1, h2]
  · intro h1
    simp [startListening, h1]

/-- Witness for C9's amended statement at the initial adapter state of a
supported environment. -/
theorem startListening_resets_witness :
    ((true = true → true = true →
      (startListening true true initialWebSpeech).1.transcript = "" ∧
      (startListening true true initialWebSpeech).1.error = none ∧
      (startListening true true initialWebSpeech).1.confidence = initialWebSpeech.confidence ∧
      (startListening true true initialWebSpeech).2 = some engineSetup) ∧
    (true = true → true = false →
      (startListening true true initialWebSpeech).1.transcript = "" ∧
      (startListening true true initialWebSpeech).1.error
        = some "Failed to start speech recognition" ∧
      (startListening true true initialWebSpeech).1.confidence = initialWebSpeech.confidence ∧
      (startListening true true initialWebSpeech).2 = none) ∧
    (true = false →
      (startListening true true initialWebSpeech).1.error
        = some "Speech recognition is not supported in this browser" ∧
      (startListening true true initialWebSpeech).2 = none ∧
      (startListening true true initialWebSpeech).1.transcript = initialWebSpeech.transcript ∧
      (startListening true true initialWebSpeech).1.confidence = initialWebSpeech.confidence ∧
      (startListening true true initialWebSpeech).1.isListening = initialWebSpeech.isListening)) :=
  startListening_resets true true initialWebSpeech

end Chatmaga
